import Mathlib

/-!
# Verification of the Flash USDT generator script

A shallow embedding of `src/flash-usdt.js`. Remote reads performed through the
ethers provider and the token contract are modelled by an environment `Env`
that fixes the outcome of each kind of read (a deterministic mock ledger
client); each method of `FlashUSDTGenerator` becomes a pure function of that
environment. Machine integers on the chain (wei amounts, gas prices, smallest
token units) are natural numbers, as balances and gas prices are non-negative
BigInts in the source. Fallible operations return `Except String` carrying the
error message; a `try { ... } catch` in the source becomes a `match` on the
`Except` value.
-/

namespace FlashUSDT

/-! ## Decimal rendering (ethers.formatUnits / ethers.formatEther)

`ethers.formatUnits(value, decimals)` renders an integer amount of smallest
units as a decimal string: the integer part, a dot, then the fractional digits
with trailing zeros removed but always at least one digit (`formatEther(0n)`
is `"0.0"`, `formatEther(420000000000000n)` is `"0.00042"`). -/

def padLeftZeros (s : String) (n : Nat) : String :=
  String.mk (List.replicate (n - s.length) '0') ++ s

def trimTrailingZeros (s : String) : String :=
  String.mk ((s.toList.reverse.dropWhile (fun c => c = '0')).reverse)

def formatUnits (value : Nat) (decimals : Nat) : String :=
  let fracStr := padLeftZeros (toString (value % 10 ^ decimals)) decimals
  let trimmed := trimTrailingZeros fracStr
  toString (value / 10 ^ decimals) ++ "." ++ (if trimmed = "" then "0" else trimmed)

def formatEther (value : Nat) : String :=
  formatUnits value 18

/-! ## Configuration constants (the `CONFIG` object) -/

def FLASH_AMOUNT : String := "300"

def GAS_LIMIT : Nat := 21000

/-- `ethers.parseEther('0.01')` = 10^16 wei. -/
def MIN_BALANCE_REQUIRED : Nat := 10 ^ 16

/-! ## The ledger-client environment -/

/-- Result of `provider.getNetwork()`: a network name and a chain id. -/
structure NetworkInfo where
  name : String
  chainId : Nat
deriving Repr, DecidableEq

/-- One deterministic mock of the remote ledger client: the outcome of each
kind of remote read a session can issue, plus the (pure) wallet address.
`getBalance` yields wei, `balanceOf` yields USDT smallest units (6 decimals),
`getFeeData` yields the gas price in wei. An `Except.error m` outcome models
the underlying call rejecting with message `m`. -/
structure Env where
  getNetwork : Except String NetworkInfo
  getBalance : Except String Nat
  balanceOf : Except String Nat
  getFeeData : Except String Nat
  walletAddress : String
deriving Repr

/-- The kinds of remote reads, used to record which reads a call issues. -/
inductive ReadEvent where
  | getNetwork
  | getBalance
  | balanceOf
  | getFeeData
deriving Repr, DecidableEq

/-! ## Session accessors -/

/-- `getEthBalance`: reads the raw wei balance and renders it with
`formatEther`; wraps a read failure with the `Failed to get ETH balance:`
context. -/
def getEthBalance (env : Env) : Except String String :=
  match env.getBalance with
  | .ok b => .ok (formatEther b)
  | .error m => .error ("Failed to get ETH balance: " ++ m)

/-- `getUsdtBalance`: reads the token balance and renders it at 6 decimals;
wraps a read failure with the `Failed to get USDT balance:` context. -/
def getUsdtBalance (env : Env) : Except String String :=
  match env.balanceOf with
  | .ok b => .ok (formatUnits b 6)
  | .error m => .error ("Failed to get USDT balance: " ++ m)

/-- `hasSufficientBalance`: compares the raw wei balance against
`MIN_BALANCE_REQUIRED`; the `catch` branch returns `false`. -/
def hasSufficientBalance (env : Env) : Bool :=
  match env.getBalance with
  | .ok b => decide (MIN_BALANCE_REQUIRED ≤ b)
  | .error _ => false

/-! ## validateWallet -/

/-- The `validation.info` map: the fields `validateWallet` may record, each
absent (`none`) until its read succeeds. -/
structure WalletInfo where
  network : Option String := none
  chainId : Option String := none
  walletAddress : Option String := none
  ethBalance : Option String := none
  usdtBalance : Option String := none
deriving Repr, DecidableEq

/-- The record `validateWallet` returns. -/
structure ValidationReport where
  isValid : Bool
  errors : List String
  warnings : List String
  info : WalletInfo
deriving Repr, DecidableEq

/-- `validateWallet`, together with the sequence of remote reads the call
issues (in order). Control flow of the source: one outer `try` covering the
network read, the address, and the ETH-balance read, with an inner `try`
around the USDT-balance read whose failure only appends a warning. The
low-balance test `parseFloat(ethBalance) < 0.01` is embedded as
`b < 10 ^ 16` on the wei amount (0.01 ether = 10^16 wei; the decimal string
round-trips exactly at this scale). -/
def validateWalletT (env : Env) : ValidationReport × List ReadEvent :=
  match env.getNetwork with
  | .error m =>
      ({ isValid := false, errors := [m], warnings := [], info := {} },
       [ReadEvent.getNetwork])
  | .ok net =>
      match env.getBalance with
      | .error m =>
          ({ isValid := false,
             errors := ["Failed to get ETH balance: " ++ m],
             warnings := [],
             info := { network := some net.name,
                       chainId := some (toString net.chainId),
                       walletAddress := some env.walletAddress } },
           [ReadEvent.getNetwork, ReadEvent.getBalance])
      | .ok b =>
          let lowWarn : List String :=
            if b < 10 ^ 16 then
              ["Low ETH balance - may not be sufficient for transactions"]
            else []
          match env.balanceOf with
          | .ok u =>
              ({ isValid := true, errors := [], warnings := lowWarn,
                 info := { network := some net.name,
                           chainId := some (toString net.chainId),
                           walletAddress := some env.walletAddress,
                           ethBalance := some (formatEther b),
                           usdtBalance := some (formatUnits u 6) } },
               [ReadEvent.getNetwork, ReadEvent.getBalance, ReadEvent.balanceOf])
          | .error _ =>
              ({ isValid := true, errors := [],
                 warnings := lowWarn ++ ["Could not retrieve USDT balance"],
                 info := { network := some net.name,
                           chainId := some (toString net.chainId),
                           walletAddress := some env.walletAddress,
                           ethBalance := some (formatEther b) } },
               [ReadEvent.getNetwork, ReadEvent.getBalance, ReadEvent.balanceOf])

/-- `validateWallet`: the report alone. -/
def validateWallet (env : Env) : ValidationReport :=
  (validateWalletT env).1

/-! ## estimateTransactionCost -/

/-- The record `estimateTransactionCost` returns on success. -/
structure GasEstimate where
  gasLimit : Nat
  gasPrice : String
  estimatedCostETH : String
  estimatedCostWei : String
deriving Repr, DecidableEq

/-- `estimateTransactionCost`: reads fee data, multiplies the raw gas price
(wei, a BigInt) by `CONFIG.GAS_LIMIT` exactly, and renders the gwei
(9 decimals) and ether (18 decimals) representations; wraps a fee-data read
failure with its context. -/
def estimateTransactionCost (env : Env) : Except String GasEstimate :=
  match env.getFeeData with
  | .ok gasPrice =>
      .ok { gasLimit := GAS_LIMIT,
            gasPrice := formatUnits gasPrice 9,
            estimatedCostETH := formatEther (gasPrice * GAS_LIMIT),
            estimatedCostWei := toString (gasPrice * GAS_LIMIT) }
  | .error m => .error ("Failed to estimate transaction cost: " ++ m)

/-! ## simulateFlashGeneration -/

/-- The record `simulateFlashGeneration` returns. The timestamp string
(`new Date().toISOString()` in the source) is supplied as the argument `ts`. -/
structure SimulationResult where
  success : Bool
  amount : String
  timestamp : String
  steps : List String
  gasEstimate : Option GasEstimate
  error : Option String
deriving Repr, DecidableEq

/-- `simulateFlashGeneration(amount = CONFIG.FLASH_AMOUNT)`. The single outer
`try/catch`: each fallible await is matched, and the first failure lands in a
result with `success = false`, `error` set to the thrown message, and the
steps pushed so far. Step 4's `delay(2000)` cannot fail. -/
def simulateFlashGeneration (env : Env) (ts : String)
    (amount : String := FLASH_AMOUNT) : SimulationResult :=
  let base : SimulationResult :=
    { success := false, amount := amount, timestamp := ts, steps := [],
      gasEstimate := none, error := none }
  let steps1 := ["Validating wallet configuration..."]
  let v := validateWallet env
  if !v.isValid then
    { base with
      steps := steps1,
      error := some ("Wallet validation failed: " ++ String.intercalate ", " v.errors) }
  else
    let steps2 := steps1 ++ ["Checking current balances..."]
    match getEthBalance env with
    | .error m => { base with steps := steps2, error := some m }
    | .ok _ =>
        match getUsdtBalance env with
        | .error m => { base with steps := steps2, error := some m }
        | .ok _ =>
            let steps3 := steps2 ++ ["Estimating transaction costs..."]
            match estimateTransactionCost env with
            | .error m => { base with steps := steps3, error := some m }
            | .ok g =>
                let steps4 := steps3 ++
                  ["Simulating flash generation of " ++ amount ++ " USDT..."]
                let steps5 := steps4 ++
                  ["Flash generation simulation completed successfully"]
                { base with success := true, steps := steps5, gasEstimate := some g }

/-! ## formatUSDTAmount (`parseFloat(amount).toFixed(6)`)

JavaScript numbers are idealised as exact rationals, with `NaN` and the
infinities as explicit values; `parseFloat` never throws (it yields `NaN`
when no numeric prefix can be parsed) and `toFixed` never throws (it renders
`NaN` as the string `"NaN"` and an infinity as `"Infinity"`). -/

/-- A JavaScript number: `NaN`, a signed infinity, or a finite value. -/
inductive JSNum where
  | nan
  | inf (neg : Bool)
  | num (q : ℚ)
deriving Repr, DecidableEq

/-- Numeric value of a digit list, most significant first. -/
def digitsToNat (ds : List Char) : Nat :=
  ds.foldl (fun n c => n * 10 + (c.toNat - 48)) 0

/-- `parseFloat` after the optional sign has been consumed: an `Infinity`
literal, or the longest prefix `digits [. digits] [e|E [sign] digits]` with at
least one mantissa digit; anything else is `NaN`. -/
def jsParseFloatCore (cs : List Char) (neg : Bool) : JSNum :=
  match cs with
  | 'I' :: 'n' :: 'f' :: 'i' :: 'n' :: 'i' :: 't' :: 'y' :: _ => .inf neg
  | _ =>
      let intDs := cs.takeWhile Char.isDigit
      let rest1 := cs.dropWhile Char.isDigit
      let fracDs :=
        match rest1 with
        | '.' :: r => r.takeWhile Char.isDigit
        | _ => []
      let rest2 :=
        match rest1 with
        | '.' :: r => r.dropWhile Char.isDigit
        | _ => rest1
      if intDs.isEmpty && fracDs.isEmpty then .nan
      else
        let mantissa : ℚ :=
          (digitsToNat intDs : ℚ) + (digitsToNat fracDs : ℚ) / 10 ^ fracDs.length
        let expo : Int :=
          match rest2 with
          | 'e' :: '+' :: r | 'E' :: '+' :: r =>
              (digitsToNat (r.takeWhile Char.isDigit) : Int)
          | 'e' :: '-' :: r | 'E' :: '-' :: r =>
              -(digitsToNat (r.takeWhile Char.isDigit) : Int)
          | 'e' :: r | 'E' :: r =>
              (digitsToNat (r.takeWhile Char.isDigit) : Int)
          | _ => 0
        let q := mantissa * (10 : ℚ) ^ expo
        .num (if neg then -q else q)

/-- `parseFloat(s)`: skip leading whitespace, consume an optional sign, then
parse the longest numeric prefix; `NaN` when there is none. -/
def jsParseFloat (s : String) : JSNum :=
  match s.toList.dropWhile Char.isWhitespace with
  | '+' :: r => jsParseFloatCore r false
  | '-' :: r => jsParseFloatCore r true
  | cs => jsParseFloatCore cs false

/-- `Number.prototype.toFixed(f)`: `"NaN"` for `NaN`, `"Infinity"` /
`"-Infinity"` for the infinities, otherwise the sign followed by the value
rounded to `f` fractional digits (ties away from zero on the magnitude). -/
def jsToFixed (x : JSNum) (f : Nat) : String :=
  match x with
  | .nan => "NaN"
  | .inf false => "Infinity"
  | .inf true => "-Infinity"
  | .num q =>
      let sgn := if q < 0 then "-" else ""
      let n : Nat := (⌊|q| * (10 : ℚ) ^ f + 1 / 2⌋).toNat
      if f = 0 then sgn ++ toString n
      else sgn ++ toString (n / 10 ^ f) ++ "." ++ padLeftZeros (toString (n % 10 ^ f)) f

/-- `formatUSDTAmount(amount) { return parseFloat(amount).toFixed(6); }`.
The result type is `Except String String` so that "propagates a parse error"
is expressible; the body itself, like the source, contains no throw. -/
def formatUSDTAmount (amount : String) : Except String String :=
  .ok (jsToFixed (jsParseFloat amount) 6)

/-! ## Spec-side descriptions of the simulation run

These two definitions follow the specification's wording (the five fixed step
descriptions; "the step descriptions appended before the failure" and "that
exception's message") and are compared against `simulateFlashGeneration`. -/

/-- The five step descriptions, in the fixed order the spec states:
validate, balance check, cost estimate, simulate, complete. -/
def stepDescriptions (amount : String) : List String :=
  ["Validating wallet configuration...",
   "Checking current balances...",
   "Estimating transaction costs...",
   "Simulating flash generation of " ++ amount ++ " USDT...",
   "Flash generation simulation completed successfully"]

/-- The first failure of a simulation run over `env`, per the spec's step
order: `some (k, m)` when the run raises during its `k`-th step with message
`m` (so the steps appended before the failure are the first `k`
descriptions), `none` when no step raises. Step 1 raises when validation
comes back invalid (network read or native-balance read failed), step 2 when
the token-balance re-read fails, step 3 when the fee-data read fails; step 4
cannot raise. -/
def firstFailure (env : Env) : Option (Nat × String) :=
  match env.getNetwork with
  | .error m => some (1, "Wallet validation failed: " ++ m)
  | .ok _ =>
      match env.getBalance with
      | .error m => some (1, "Wallet validation failed: Failed to get ETH balance: " ++ m)
      | .ok _ =>
          match env.balanceOf with
          | .error m => some (2, "Failed to get USDT balance: " ++ m)
          | .ok _ =>
              match env.getFeeData with
              | .error m => some (3, "Failed to estimate transaction cost: " ++ m)
              | .ok _ => none

/-! ## Concrete environments used as witnesses -/

/-- A fully healthy mock session: every read succeeds. -/
def envHealthy : Env :=
  { getNetwork := .ok { name := "mainnet", chainId := 1 },
    getBalance := .ok (10 ^ 17),
    balanceOf := .ok 5000000,
    getFeeData := .ok 20000000000,
    walletAddress := "0xWallet" }

/-- A session whose network-identity read fails; all other reads succeed. -/
def envNetFail : Env :=
  { getNetwork := .error "network is down",
    getBalance := .ok (10 ^ 17),
    balanceOf := .ok 5000000,
    getFeeData := .ok 20000000000,
    walletAddress := "0xWallet" }

/-- A session where only the token-balance read fails. -/
def envTokenFail : Env :=
  { getNetwork := .ok { name := "mainnet", chainId := 1 },
    getBalance := .ok (10 ^ 17),
    balanceOf := .error "token read failed",
    getFeeData := .ok 20000000000,
    walletAddress := "0xWallet" }

/-- A session where only the native-balance read fails. -/
def envEthFail : Env :=
  { getNetwork := .ok { name := "mainnet", chainId := 1 },
    getBalance := .error "balance unavailable",
    balanceOf := .ok 5000000,
    getFeeData := .ok 20000000000,
    walletAddress := "0xWallet" }

/-! ## Theorems -/

/-- Joining a one-element error list, as `errors.join(', ')` does when a
single error was recorded, is that error. -/
theorem intercalate_single (s : String) : String.intercalate ", " [s] = s := rfl

/-- The validation-failure wrapper applied to a wrapped ETH-balance error:
prepending the two literal contexts one after the other is prepending their
concatenation. -/
theorem msg_assoc (x : String) :
    "Wallet validation failed: " ++ ("Failed to get ETH balance: " ++ x) =
    "Wallet validation failed: Failed to get ETH balance: " ++ x := by
  rw [← String.append_assoc]
  rfl

/-- C7: `hasSufficientBalance` never throws (it is a total function into
`Bool`); it returns `true` exactly when the raw native-balance read succeeds
with a balance of at least `MIN_BALANCE_REQUIRED` (0.01 native units), so in
particular every failed read yields `false`. -/
theorem hasSufficientBalance_iff (env : Env) :
    hasSufficientBalance env = true ↔
    ∃ b, env.getBalance = Except.ok b ∧ MIN_BALANCE_REQUIRED ≤ b := by
  obtain ⟨gn, gb, bo, fd, wa⟩ := env
  cases gb <;> simp [hasSufficientBalance]

/-- C9: every simulation result satisfies `success = true ↔ error = none`:
a run either completes with no error message or fails with one. -/
theorem simulateFlashGeneration_success_iff_error_none (env : Env) (ts amount : String) :
    (simulateFlashGeneration env ts amount).success = true ↔
    (simulateFlashGeneration env ts amount).error = none := by
  obtain ⟨gn, gb, bo, fd, wa⟩ := env
  cases gn <;> cases gb <;> cases bo <;> cases fd <;>
    simp [simulateFlashGeneration, validateWallet, validateWalletT, getEthBalance,
      getUsdtBalance, estimateTransactionCost]

/-- C10: the `amount` field of a simulation result always equals the `amount`
argument, whether the run succeeds or fails, and equals `"300"` when the
argument is omitted (the default `CONFIG.FLASH_AMOUNT`). -/
theorem simulateFlashGeneration_amount_preserved (env : Env) (ts amount : String) :
    (simulateFlashGeneration env ts amount).amount = amount ∧
    (simulateFlashGeneration env ts).amount = "300" := by
  obtain ⟨gn, gb, bo, fd, wa⟩ := env
  refine ⟨?_, ?_⟩ <;>
  · cases gn <;> cases gb <;> cases bo <;> cases fd <;>
      simp [simulateFlashGeneration, FLASH_AMOUNT, validateWallet, validateWalletT,
        getEthBalance, getUsdtBalance, estimateTransactionCost]

/-- C5 counterexample: on a session where only the native-balance read fails
(network identity succeeds), `validateWallet` returns `isValid = false` with
the failure recorded as an error and no warning — the failed native-balance
read is a hard failure, not the soft warning-and-continue the claim states. -/
theorem validateWallet_nativeFailure_hard :
    (validateWallet envEthFail).isValid = false ∧
    (validateWallet envEthFail).errors = ["Failed to get ETH balance: balance unavailable"] ∧
    (validateWallet envEthFail).warnings = [] := by
  refine ⟨rfl, ?_, rfl⟩
  decide

/-- C5 amended: `validateWallet` returns `isValid = true` exactly when both
the network-identity read and the native-balance read succeed: both are hard
failures, and the token-balance read is the only soft one (its failure never
affects validity). -/
theorem validateWallet_isValid_iff_reads (env : Env) :
    (validateWallet env).isValid = true ↔
    ((∃ n, env.getNetwork = Except.ok n) ∧ (∃ b, env.getBalance = Except.ok b)) := by
  obtain ⟨gn, gb, bo, fd, wa⟩ := env
  cases gn <;> cases gb <;> cases bo <;>
    simp [validateWallet, validateWalletT]

/-- C3: when the network-identity read fails with message `m`,
`validateWallet` returns exactly `{isValid := false, errors := [m],
warnings := [], info := {}}`, and the only read the call issued is the
network-identity read — neither the native-balance nor the token-balance
read is invoked. -/
theorem validateWallet_networkFailure_shortCircuits (env : Env) (m : String)
    (h : env.getNetwork = Except.error m) :
    validateWalletT env =
      ({ isValid := false, errors := [m], warnings := [], info := {} },
       [ReadEvent.getNetwork]) ∧
    ReadEvent.getBalance ∉ (validateWalletT env).2 ∧
    ReadEvent.balanceOf ∉ (validateWalletT env).2 := by
  obtain ⟨gn, gb, bo, fd, wa⟩ := env
  cases gn <;> simp_all [validateWalletT]

/-- C3 witness: the short-circuit at the concrete session `envNetFail`. -/
theorem validateWallet_networkFailure_shortCircuits_witness :
    envNetFail.getNetwork = Except.error "network is down" ∧
    (validateWalletT envNetFail =
      ({ isValid := false, errors := ["network is down"], warnings := [], info := {} },
       [ReadEvent.getNetwork]) ∧
    ReadEvent.getBalance ∉ (validateWalletT envNetFail).2 ∧
    ReadEvent.balanceOf ∉ (validateWalletT envNetFail).2) :=
  ⟨rfl, validateWallet_networkFailure_shortCircuits envNetFail "network is down" rfl⟩

/-- C6: when only the token-balance read fails (network identity and native
balance succeed), `validateWallet` returns `isValid = true`, a non-empty
warning list containing the could-not-retrieve-token-balance warning, and an
`info` record holding the wallet address and native balance but no token
balance. -/
theorem validateWallet_tokenFailure_soft (env : Env) (n : NetworkInfo) (b : Nat) (m : String)
    (hn : env.getNetwork = Except.ok n) (hb : env.getBalance = Except.ok b)
    (ht : env.balanceOf = Except.error m) :
    (validateWallet env).isValid = true ∧
    (validateWallet env).warnings ≠ [] ∧
    "Could not retrieve USDT balance" ∈ (validateWallet env).warnings ∧
    (validateWallet env).info.walletAddress = some env.walletAddress ∧
    (validateWallet env).info.ethBalance = some (formatEther b) ∧
    (validateWallet env).info.usdtBalance = none := by
  obtain ⟨gn, gb, bo, fd, wa⟩ := env
  cases gn <;> cases gb <;> cases bo <;> simp_all [validateWallet, validateWalletT]

/-- C6 witness: the soft token-balance degradation at the concrete session
`envTokenFail`. -/
theorem validateWallet_tokenFailure_soft_witness :
    envTokenFail.getNetwork = Except.ok { name := "mainnet", chainId := 1 } ∧
    envTokenFail.getBalance = Except.ok (10 ^ 17) ∧
    envTokenFail.balanceOf = Except.error "token read failed" ∧
    ((validateWallet envTokenFail).isValid = true ∧
    (validateWallet envTokenFail).warnings ≠ [] ∧
    "Could not retrieve USDT balance" ∈ (validateWallet envTokenFail).warnings ∧
    (validateWallet envTokenFail).info.walletAddress = some envTokenFail.walletAddress ∧
    (validateWallet envTokenFail).info.ethBalance = some (formatEther (10 ^ 17)) ∧
    (validateWallet envTokenFail).info.usdtBalance = none) :=
  ⟨rfl, rfl, rfl,
   validateWallet_tokenFailure_soft envTokenFail { name := "mainnet", chainId := 1 }
     (10 ^ 17) "token read failed" rfl rfl rfl⟩

/-- C2: on a session where every read succeeds, `simulateFlashGeneration`
with amount `"300"` returns `success = true`, the five step descriptions in
their fixed order, a non-null gas estimate, and `error = none`. -/
theorem simulateFlashGeneration_healthy (env : Env) (ts : String)
    (n : NetworkInfo) (b u f : Nat)
    (hn : env.getNetwork = Except.ok n) (hb : env.getBalance = Except.ok b)
    (hu : env.balanceOf = Except.ok u) (hf : env.getFeeData = Except.ok f) :
    (simulateFlashGeneration env ts "300").success = true ∧
    (simulateFlashGeneration env ts "300").steps = stepDescriptions "300" ∧
    (simulateFlashGeneration env ts "300").steps.length = 5 ∧
    (simulateFlashGeneration env ts "300").gasEstimate ≠ none ∧
    (simulateFlashGeneration env ts "300").error = none := by
  obtain ⟨gn, gb, bo, fd, wa⟩ := env
  cases gn <;> cases gb <;> cases bo <;> cases fd <;>
    simp_all [simulateFlashGeneration, validateWallet, validateWalletT, getEthBalance,
      getUsdtBalance, estimateTransactionCost, stepDescriptions]

/-- C2 witness: the healthy run at the concrete session `envHealthy`. -/
theorem simulateFlashGeneration_healthy_witness :
    envHealthy.getNetwork = Except.ok { name := "mainnet", chainId := 1 } ∧
    envHealthy.getBalance = Except.ok (10 ^ 17) ∧
    envHealthy.balanceOf = Except.ok 5000000 ∧
    envHealthy.getFeeData = Except.ok 20000000000 ∧
    ((simulateFlashGeneration envHealthy "2026-10-11T00:00:00.000Z" "300").success = true ∧
    (simulateFlashGeneration envHealthy "2026-10-11T00:00:00.000Z" "300").steps =
      stepDescriptions "300" ∧
    (simulateFlashGeneration envHealthy "2026-10-11T00:00:00.000Z" "300").steps.length = 5 ∧
    (simulateFlashGeneration envHealthy "2026-10-11T00:00:00.000Z" "300").gasEstimate ≠ none ∧
    (simulateFlashGeneration envHealthy "2026-10-11T00:00:00.000Z" "300").error = none) :=
  ⟨rfl, rfl, rfl, rfl,
   simulateFlashGeneration_healthy envHealthy "2026-10-11T00:00:00.000Z"
     { name := "mainnet", chainId := 1 } (10 ^ 17) 5000000 20000000000 rfl rfl rfl rfl⟩

/-- C1: when a run raises in one of steps 1-4 (its `k`-th step, with message
`m`), the exception is caught at the top level: the result has
`success = false`, `error` set to that message, and `steps` equal to exactly
the first `k` step descriptions in order — the partial step log is kept. -/
theorem simulateFlashGeneration_failure_shape (env : Env) (ts amount : String)
    (k : Nat) (m : String) (h : firstFailure env = some (k, m)) :
    (simulateFlashGeneration env ts amount).success = false ∧
    (simulateFlashGeneration env ts amount).error = some m ∧
    (simulateFlashGeneration env ts amount).steps = (stepDescriptions amount).take k := by
  obtain ⟨gn, gb, bo, fd, wa⟩ := env
  cases gn <;> cases gb <;> cases bo <;> cases fd <;>
    simp [firstFailure] at h <;>
    (obtain ⟨rfl, rfl⟩ := h
     simp [simulateFlashGeneration, validateWallet, validateWalletT,
       getEthBalance, getUsdtBalance, estimateTransactionCost, stepDescriptions,
       List.take, intercalate_single, msg_assoc])

/-- C1 witness: a failed network read at `envNetFail` yields a failed result
holding only the first step description and the thrown message. -/
theorem simulateFlashGeneration_failure_shape_witness :
    firstFailure envNetFail = some (1, "Wallet validation failed: network is down") ∧
    ((simulateFlashGeneration envNetFail "T" "300").success = false ∧
    (simulateFlashGeneration envNetFail "T" "300").error =
      some "Wallet validation failed: network is down" ∧
    (simulateFlashGeneration envNetFail "T" "300").steps =
      (stepDescriptions "300").take 1) :=
  ⟨rfl, simulateFlashGeneration_failure_shape envNetFail "T" "300" 1
    "Wallet validation failed: network is down" rfl⟩

/-- C4: whenever the fee-data read yields a gas price of 20 gwei
(20000000000 wei), `estimateTransactionCost` multiplies it exactly by the
default gas limit 21000 and renders the native-unit cost as the exact string
`"0.00042"` (wei cost `"420000000000000"`), and any two calls whose fee reads
both yield 20 gwei return identical estimates. -/
theorem estimateTransactionCost_twentyGwei (e1 e2 : Env)
    (h1 : e1.getFeeData = Except.ok 20000000000)
    (h2 : e2.getFeeData = Except.ok 20000000000) :
    estimateTransactionCost e1 =
      Except.ok { gasLimit := 21000, gasPrice := "20.0",
                  estimatedCostETH := "0.00042",
                  estimatedCostWei := "420000000000000" } ∧
    estimateTransactionCost e2 = estimateTransactionCost e1 := by
  have he : ∀ e : Env, e.getFeeData = Except.ok 20000000000 →
      estimateTransactionCost e =
        Except.ok { gasLimit := 21000, gasPrice := "20.0",
                    estimatedCostETH := "0.00042",
                    estimatedCostWei := "420000000000000" } := by
    intro e he
    simp [estimateTransactionCost, he]
    decide
  exact ⟨he e1 h1, (he e2 h2).trans (he e1 h1).symm⟩

/-- C4 witness: the exact estimate at the concrete session `envHealthy`,
whose fee read yields 20 gwei. -/
theorem estimateTransactionCost_twentyGwei_witness :
    envHealthy.getFeeData = Except.ok 20000000000 ∧
    (estimateTransactionCost envHealthy =
      Except.ok { gasLimit := 21000, gasPrice := "20.0",
                  estimatedCostETH := "0.00042",
                  estimatedCostWei := "420000000000000" } ∧
    estimateTransactionCost envHealthy = estimateTransactionCost envHealthy) :=
  ⟨rfl, estimateTransactionCost_twentyGwei envHealthy envHealthy rfl rfl⟩

/-- C8 counterexample: `"abc"` is not numeric (`parseFloat` yields `NaN`),
yet `formatUSDTAmount` does not propagate a parse error: it returns the
string `"NaN"`. -/
theorem formatUSDTAmount_nonNumeric_returns_string :
    jsParseFloat "abc" = JSNum.nan ∧
    formatUSDTAmount "abc" = Except.ok "NaN" := by
  exact ⟨by decide, rfl⟩

/-- C8 amended: for every input that is not numeric (`parseFloat` yields
`NaN`), `formatUSDTAmount` raises no error and returns the string `"NaN"`
(the `NaN` is rendered by `toFixed`, never rejected). -/
theorem formatUSDTAmount_nonNumeric_ok (s : String)
    (h : jsParseFloat s = JSNum.nan) :
    formatUSDTAmount s = Except.ok "NaN" := by
  simp [formatUSDTAmount, jsToFixed, h]

/-- C8 amended witness: the non-numeric input `"abc"`. -/
theorem formatUSDTAmount_nonNumeric_ok_witness :
    jsParseFloat "abc" = JSNum.nan ∧ formatUSDTAmount "abc" = Except.ok "NaN" :=
  ⟨by decide, formatUSDTAmount_nonNumeric_ok "abc" (by decide)⟩

end FlashUSDT
